import Mathlib

/-!
Shallow embedding of the mock CAN media adapter
(`tests/transport/can/media/mock/_media.py`, class `MockMedia`) of the
pyuavcan repository, together with theorems checking the specified
behaviour of the acceptance-filter pipeline, the lifecycle state machine,
the virtual-bus broadcast, and the fault-injection harness.

The Python methods become pure Lean functions; the mutable adapter object
becomes an explicit `MockMedia` state record that the functions thread
through; a raised exception becomes an `Except.error`; invoking the
reception handler with a batch becomes returning `some batch` from the
receive pipeline (and `none` when the handler is not invoked).
-/

namespace PyuavcanMock

/-- Modelled from the spec: the CAN frame format enumeration of
`pyuavcan.transport.can.media` (its source is outside this repository).
Per the spec, an identifier is "11 or 29 bits depending on `format`". -/
inductive FrameFormat where
  | base
  | extended
deriving DecidableEq, Repr

/-- Modelled from the spec: the integer value of the frame format enum is its
identifier bit length (11 for BASE, 29 for EXTENDED) — the mock's dead-filter
mask `2 ** int(fmt) - 1` is described by the spec as "mask covering all
format-valid bits". -/
def FrameFormat.intValue : FrameFormat → Nat
  | .base => 11
  | .extended => 29

/-- Modelled from the spec: a CAN data frame value — `identifier`, `data`
(byte sequence), `format`, `loopback` (transmitter requests a copy back). -/
structure DataFrame where
  identifier : Nat
  data : List Nat
  format : FrameFormat
  loopback : Bool
deriving DecidableEq, Repr

/-- Modelled from the spec: a `DataFrame` plus a reception `timestamp`
(created only at the reception boundary). -/
structure TimestampedDataFrame where
  frame : DataFrame
  timestamp : Nat
deriving DecidableEq, Repr

/-- Modelled from the spec: an acceptance filter configuration — reference
`identifier`, `mask` of bits that must match, and an optional `format`
(`none` means any format is accepted). -/
structure FilterConfiguration where
  identifier : Nat
  mask : Nat
  format : Option FrameFormat
deriving DecidableEq, Repr

/-- Outcome of an operation that can raise. `resourceClosed` stands for
`pyuavcan.transport.ResourceClosedError`; `injected e` is the exception
object armed through `raise_on_send_once` re-raised verbatim (its payload
abstracted to a `Nat` tag); `assertionFailed` is a failed `assert`
statement, carrying its message. -/
inductive MediaErr where
  | resourceClosed
  | injected (e : Nat)
  | assertionFailed (msg : String)
deriving DecidableEq, Repr

def emptyBatchMsg : String := "Interface constraint violation: empty transmission set"

def emptyPayloadMsg : String := "CAN frames with empty payload are not valid"

def nonuniformIdMsg : String := "Interface constraint violation: nonuniform ID"

def bankLengthMsg : String := "len(configuration) == len(acceptance_filters)"

/-- The mutable state of one `MockMedia` adapter. The shared peer set is
kept outside the record (the bus is passed to `sendUntil` as the list of
the other registered peers). `rxHandlerSet` records whether `start` has
registered a real handler (before `start` the handler is the constructor's
no-op lambda). `pendingSendFault` is the `_raise_on_send_once` slot. -/
structure MockMedia where
  mtu : Nat
  rxHandlerSet : Bool
  acceptanceFilters : List FilterConfiguration
  automaticRetransmissionEnabled : Bool
  closed : Bool
  pendingSendFault : Option Nat
deriving DecidableEq, Repr

/-- `MockMedia._make_dead_filter`: identifier 0, mask `2 ** int(BASE) - 1`,
explicit BASE format. -/
def MockMedia.makeDeadFilter : FilterConfiguration :=
  let fmt := FrameFormat.base
  { identifier := 0, mask := 2 ^ fmt.intValue - 1, format := some fmt }

/-- `MockMedia.__init__` (minus peer-set registration, which the bus-level
model keeps outside the record): the filter bank starts as
`number_of_acceptance_filters` dead filters, automatic retransmission is
disabled, the adapter is not closed and no fault is armed. -/
def MockMedia.init (mtu : Nat) (numberOfAcceptanceFilters : Nat) : MockMedia :=
  { mtu := mtu
    rxHandlerSet := false
    acceptanceFilters := List.replicate numberOfAcceptanceFilters MockMedia.makeDeadFilter
    automaticRetransmissionEnabled := false
    closed := false
    pendingSendFault := none }

/-- The per-slot acceptance test, the lambda body of
`MockMedia._test_acceptance`:
`frame.identifier & f.mask == f.identifier & f.mask and (f.format is None or
frame.format == f.format)`. -/
def filterAccepts (frame : DataFrame) (f : FilterConfiguration) : Bool :=
  (frame.identifier &&& f.mask == f.identifier &&& f.mask) &&
    (match f.format with
     | none => true
     | some fmt => frame.format == fmt)

/-- `MockMedia._test_acceptance`: the frame passes iff any slot of the bank
accepts it. -/
def MockMedia.testAcceptance (m : MockMedia) (frame : DataFrame) : Bool :=
  m.acceptanceFilters.any (filterAccepts frame)

/-- `MockMedia._receive`: filter the incoming batch through the bank and
invoke the reception handler iff the filtered list is non-empty. The
returned value is the batch handed to the handler (`none`: not invoked). -/
def MockMedia.receive (m : MockMedia) (frames : List TimestampedDataFrame) :
    Option (List TimestampedDataFrame) :=
  let fs := frames.filter fun tf => m.testAcceptance tf.frame
  if fs.isEmpty then none else some fs

/-- `MockMedia.start`: raises `ResourceClosedError` iff closed; otherwise
registers the handler and sets the automatic-retransmission flag to
`not no_automatic_retransmission`. -/
def MockMedia.start (m : MockMedia) (noAutomaticRetransmission : Bool) :
    Except MediaErr MockMedia :=
  if m.closed then .error .resourceClosed
  else
    .ok { m with
          rxHandlerSet := true
          automaticRetransmissionEnabled := !noAutomaticRetransmission }

/-- `MockMedia.configure_acceptance_filters`: raises `ResourceClosedError`
iff closed; otherwise copies the argument and appends dead filters while it
is shorter than the bank (`while len(configuration) < len(...)`), asserts
the lengths now agree, and installs the padded list as the new bank. -/
def MockMedia.configureAcceptanceFilters (m : MockMedia)
    (configuration : List FilterConfiguration) : Except MediaErr MockMedia :=
  if m.closed then .error .resourceClosed
  else
    let padded := configuration ++
      List.replicate (m.acceptanceFilters.length - configuration.length)
        MockMedia.makeDeadFilter
    if padded.length == m.acceptanceFilters.length then
      .ok { m with acceptanceFilters := padded }
    else .error (.assertionFailed bankLengthMsg)

/-- `MockMedia.close`: only the first close succeeds; it marks the adapter
closed (the bus-level model drops the peer from the shared set then). -/
def MockMedia.close (m : MockMedia) : Except MediaErr MockMedia :=
  if m.closed then .error .resourceClosed
  else .ok { m with closed := true }

/-- `MockMedia.raise_on_send_once`: arm the one-shot send fault. -/
def MockMedia.raiseOnSendOnce (m : MockMedia) (ex : Nat) : MockMedia :=
  { m with pendingSendFault := some ex }

/-- `assert len(set(map(lambda x: x.identifier, frames))) == 1`: for a
non-empty list this is "all identifiers equal the first one" (and the
mock checks emptiness first, so the empty case is unreachable here). -/
def uniformIdentifier : List DataFrame → Bool
  | [] => false
  | f :: rest => rest.all fun g => g.identifier == f.identifier

/-- What one successful `send_until` call produced: the returned count,
the batch handed to each other peer's handler (aligned with the
`otherPeers` argument; `none` when that peer's handler was not invoked),
and the loopback batch handed to the sender's own handler. -/
structure SendOk where
  count : Nat
  peerDeliveries : List (Option (List TimestampedDataFrame))
  selfDelivery : Option (List TimestampedDataFrame)
deriving DecidableEq, Repr

/-- `MockMedia.send_until`. The deadline is unused (`del monotonic_deadline`).
Order of effects, as in the source: the closed check, then re-raising (and
clearing) the armed fault, then the three batch assertions, then the
broadcast to every other peer with `loopback` re-tagged to false and the
current time stamped, then the self-loopback redelivery of the frames
whose own `loopback` flag is true. The returned state is the sender after
the call (the fault slot may have been cleared even on an error). -/
def MockMedia.sendUntil (m : MockMedia) (otherPeers : List MockMedia)
    (frames : List DataFrame) (monotonicDeadline : Nat) (now : Nat) :
    MockMedia × Except MediaErr SendOk :=
  let _ := monotonicDeadline
  if m.closed then (m, .error .resourceClosed)
  else
    match m.pendingSendFault with
    | some e => ({ m with pendingSendFault := none }, .error (.injected e))
    | none =>
      if frames.length = 0 then (m, .error (.assertionFailed emptyBatchMsg))
      else if frames.any fun f => f.data.length = 0 then
        (m, .error (.assertionFailed emptyPayloadMsg))
      else if !uniformIdentifier frames then
        (m, .error (.assertionFailed nonuniformIdMsg))
      else
        let wire := frames.map fun f =>
          TimestampedDataFrame.mk { f with loopback := false } now
        let peerDeliveries := otherPeers.map fun p => p.receive wire
        let selfDelivery := m.receive
          ((frames.filter fun f => f.loopback).map fun f =>
            TimestampedDataFrame.mk { f with loopback := true } now)
        (m, .ok { count := frames.length, peerDeliveries, selfDelivery })

/-- `MockMedia.inject_received`: no lifecycle check at all — stamp the
frames with the current time, keeping each frame's own `loopback` flag,
and push them through this adapter's own receive pipeline. -/
def MockMedia.injectReceived (m : MockMedia) (frames : List DataFrame)
    (now : Nat) : Option (List TimestampedDataFrame) :=
  m.receive (frames.map fun f => TimestampedDataFrame.mk f now)

/-! ## Helper lemmas shared by several claim proofs -/

/-- Unfolding of the per-slot acceptance rule into a proposition. -/
theorem filterAccepts_iff (frame : DataFrame) (f : FilterConfiguration) :
    filterAccepts frame f = true ↔
      frame.identifier &&& f.mask = f.identifier &&& f.mask ∧
        (f.format = none ∨ f.format = some frame.format) := by
  obtain ⟨fi, fm, ff⟩ := f
  cases ff with
  | none => simp [filterAccepts]
  | some fmt =>
    simp only [filterAccepts, Bool.and_eq_true, beq_iff_eq, reduceCtorEq,
      Option.some.injEq, false_or]
    constructor
    · rintro ⟨h1, h2⟩
      exact ⟨h1, h2.symm⟩
    · rintro ⟨h1, h2⟩
      exact ⟨h1, h2.symm⟩

/-- The per-slot acceptance rule never reads the frame's loopback flag. -/
theorem filterAccepts_retag (f : DataFrame) (b : Bool) (c : FilterConfiguration) :
    filterAccepts { f with loopback := b } c = filterAccepts f c := by
  cases f
  rfl

/-- Bank-level acceptance never reads the frame's loopback flag. -/
theorem testAcceptance_retag (m : MockMedia) (f : DataFrame) (b : Bool) :
    m.testAcceptance { f with loopback := b } = m.testAcceptance f := by
  unfold MockMedia.testAcceptance
  induction m.acceptanceFilters with
  | nil => rfl
  | cons c cs ih => simp [List.any_cons, filterAccepts_retag, ih]

/-- Filtering a mapped list, for pushing the acceptance filter through the
re-tagging map of the broadcast path. -/
theorem filter_map_comm {α β : Type} (g : α → β) (p : β → Bool) (l : List α) :
    (l.map g).filter p = (l.filter fun a => p (g a)).map g := by
  induction l with
  | nil => rfl
  | cons a l ih =>
    by_cases h : p (g a) <;> simp [List.filter_cons, h, ih]

/-- The dead filter spelled out: mask `2 ^ 11 - 1 = 2047`, BASE format. -/
theorem makeDeadFilter_eq :
    MockMedia.makeDeadFilter =
      { identifier := 0, mask := 2047, format := some FrameFormat.base } := by
  decide

/-! ## Claim C1 -/

/-- Counterexample to claim C1 as stated: a BASE-format frame with
identifier 0 is accepted by the all-dead default bank of a freshly
constructed adapter (here: MTU 64, 3 filter slots), so the dead filter does
not match "no frame". -/
theorem c1_deadBank_counterexample :
    (MockMedia.init 64 3).testAcceptance
      { identifier := 0, data := [97], format := FrameFormat.base,
        loopback := false } = true := by
  decide

/-- Claim C1 (amended): acceptance against the all-dead default bank of a
fresh adapter holds exactly for BASE-format frames whose low 11 identifier
bits are all zero (and only when the bank has at least one slot); every
EXTENDED frame and every BASE frame whose identifier has a nonzero bit in
the 11-bit range is rejected, so a freshly constructed adapter delivers
almost no frames — none except base frames with identifier ≡ 0 mod 2048 —
until `configure_acceptance_filters` is called. -/
theorem c1_deadBank_accepts_iff (mtu n : Nat) (f : DataFrame) :
    (MockMedia.init mtu n).testAcceptance f = true ↔
      0 < n ∧ f.format = FrameFormat.base ∧ f.identifier &&& 2047 = 0 := by
  unfold MockMedia.init MockMedia.testAcceptance
  simp only [List.any_eq_true, List.mem_replicate, makeDeadFilter_eq]
  constructor
  · rintro ⟨c, ⟨hn, rfl⟩, hacc⟩
    rw [filterAccepts_iff] at hacc
    obtain ⟨hmask, hfmt⟩ := hacc
    refine ⟨Nat.pos_of_ne_zero hn, ?_, ?_⟩
    · rcases hfmt with h | h
      · exact absurd h (by simp)
      · exact (Option.some.injEq _ _ ▸ h).symm
    · simpa using hmask
  · rintro ⟨hn, hfmt, hid⟩
    refine ⟨_, ⟨Nat.pos_iff_ne_zero.mp hn, rfl⟩, ?_⟩
    rw [filterAccepts_iff]
    exact ⟨by simpa using hid, Or.inr (by rw [hfmt])⟩

/-- Witness for the amended C1: a BASE frame whose identifier is 2048 (all
low 11 bits zero) is accepted by a one-slot dead bank. -/
theorem c1_deadBank_accepts_iff_witness :
    (MockMedia.init 64 1).testAcceptance { identifier := 2048, data := [1], format := FrameFormat.base, loopback := false } = true :=
  (c1_deadBank_accepts_iff 64 1 { identifier := 2048, data := [1], format := FrameFormat.base, loopback := false }).mpr
    ⟨by decide, rfl, by decide⟩

/-! ## Claim C2 -/

/-- Claim C2: a frame is accepted iff some slot `f` of the bank satisfies
`frame.identifier &&& f.mask = f.identifier &&& f.mask` and
(`f.format` is `none` or equals the frame's format); consequently a bank
containing a promiscuous slot (mask 0, format `none`) accepts every
frame. -/
theorem c2_acceptance_characterization :
    (∀ (m : MockMedia) (frame : DataFrame),
        m.testAcceptance frame = true ↔
          ∃ f ∈ m.acceptanceFilters,
            frame.identifier &&& f.mask = f.identifier &&& f.mask ∧
              (f.format = none ∨ f.format = some frame.format)) ∧
    (∀ (m : MockMedia) (frame : DataFrame) (p : FilterConfiguration),
        p.mask = 0 → p.format = none → p ∈ m.acceptanceFilters →
          m.testAcceptance frame = true) := by
  constructor
  · intro m frame
    unfold MockMedia.testAcceptance
    simp only [List.any_eq_true, filterAccepts_iff]
  · intro m frame p hmask hfmt hmem
    unfold MockMedia.testAcceptance
    rw [List.any_eq_true]
    exact ⟨p, hmem,
      (filterAccepts_iff _ _).mpr ⟨by simp [hmask], Or.inl hfmt⟩⟩

/-- Witness for C2: the promiscuous part applied at a concrete bank and a
concrete extended-format frame. -/
theorem c2_acceptance_characterization_witness :
    ({ mtu := 8, rxHandlerSet := true,
       acceptanceFilters := [{ identifier := 0, mask := 0, format := none }],
       automaticRetransmissionEnabled := true, closed := false,
       pendingSendFault := none } : MockMedia).testAcceptance
      { identifier := 456, data := [1, 2], format := FrameFormat.extended,
        loopback := false } = true :=
  c2_acceptance_characterization.2 _ _
    { identifier := 0, mask := 0, format := none } rfl rfl (by simp)

/-! ## Claim C3 -/

/-- Counterexample to claim C3 as stated: `configure_acceptance_filters`
invoked on a freshly constructed adapter that was never started succeeds
(replacing the whole bank with dead filters) instead of failing with
ResourceClosed — the mock checks only the closed flag, not startedness. -/
theorem c3_created_counterexample :
    (MockMedia.init 64 3).configureAcceptanceFilters [] =
      Except.ok (MockMedia.init 64 3) := by
  rfl

/-- Claim C3 (amended): an operation fails with ResourceClosed iff the
adapter is closed. On a closed adapter, `start`,
`configure_acceptance_filters`, `send_until` and `close` all fail with
ResourceClosed; on a non-closed adapter — started or not — `start` and
`close` succeed and `send_until` and `configure_acceptance_filters` never
fail with ResourceClosed (they may still fail their own contract checks or
raise an armed fault). -/
theorem c3_resourceClosed_iff_closed (m : MockMedia) (peers : List MockMedia)
    (frames : List DataFrame) (cfg : List FilterConfiguration) (b : Bool)
    (dl now : Nat) :
    (m.closed = true →
        m.start b = Except.error MediaErr.resourceClosed ∧
        m.configureAcceptanceFilters cfg = Except.error MediaErr.resourceClosed ∧
        (m.sendUntil peers frames dl now).2 = Except.error MediaErr.resourceClosed ∧
        m.close = Except.error MediaErr.resourceClosed) ∧
    (m.closed = false →
        (∃ m', m.start b = Except.ok m') ∧
        m.configureAcceptanceFilters cfg ≠ Except.error MediaErr.resourceClosed ∧
        (m.sendUntil peers frames dl now).2 ≠ Except.error MediaErr.resourceClosed ∧
        (∃ m', m.close = Except.ok m')) := by
  constructor
  · intro hc
    refine ⟨?_, ?_, ?_, ?_⟩ <;>
      simp [MockMedia.start, MockMedia.configureAcceptanceFilters,
        MockMedia.sendUntil, MockMedia.close, hc]
  · intro hc
    refine ⟨⟨{ m with rxHandlerSet := true, automaticRetransmissionEnabled := !b }, by simp [MockMedia.start, hc]⟩, ?_, ?_, ⟨{ m with closed := true }, by simp [MockMedia.close, hc]⟩⟩
    · unfold MockMedia.configureAcceptanceFilters
      simp only [hc, Bool.false_eq_true, if_false]
      split_ifs <;> simp
    · unfold MockMedia.sendUntil
      rcases hp : m.pendingSendFault with _ | e
      · simp only [hc, hp, Bool.false_eq_true, if_false]
        split_ifs <;> simp
      · simp [hc, hp]

/-- Witness for C3: on the fresh (created, never-started) adapter,
reconfiguration does not fail with ResourceClosed. -/
theorem c3_resourceClosed_iff_closed_witness :
    (MockMedia.init 64 3).configureAcceptanceFilters [] ≠
      Except.error MediaErr.resourceClosed :=
  ((c3_resourceClosed_iff_closed (MockMedia.init 64 3) [] [] [] false 0 0).2
    rfl).2.1

/-! ## Claim C4 -/

/-- Counterexample to claim C4 as stated: a second `start` on an adapter
that is already started succeeds — it does not raise ResourceClosed; it
merely re-registers the handler and recomputes the retransmission flag. -/
theorem c4_second_start_counterexample :
    ((MockMedia.init 64 3).start false).bind (fun m => m.start true) =
      Except.ok { MockMedia.init 64 3 with rxHandlerSet := true } := by
  rfl

/-- Claim C4 (amended): `start` fails with ResourceClosed iff the adapter
is closed; on a non-closed adapter it succeeds, and calling `start` again
on the already-started result succeeds as well, re-deriving the
automatic-retransmission flag from the new argument. -/
theorem c4_start_fails_iff_closed (m : MockMedia) (b b2 : Bool) :
    (m.closed = true → m.start b = Except.error MediaErr.resourceClosed) ∧
    (m.closed = false →
        ∃ m', m.start b = Except.ok m' ∧ m'.rxHandlerSet = true ∧
          m'.automaticRetransmissionEnabled = !b ∧
          ∃ m'', m'.start b2 = Except.ok m'' ∧
            m''.automaticRetransmissionEnabled = !b2) := by
  constructor
  · intro hc
    simp [MockMedia.start, hc]
  · intro hc
    exact ⟨{ m with rxHandlerSet := true, automaticRetransmissionEnabled := !b },
      by simp [MockMedia.start, hc], rfl, rfl,
      { m with rxHandlerSet := true, automaticRetransmissionEnabled := !b2 },
      by simp [MockMedia.start, hc], rfl⟩

/-- Witness for C4: the amended statement applied to a fresh adapter. -/
theorem c4_start_fails_iff_closed_witness :
    ∃ m', (MockMedia.init 64 3).start false = Except.ok m' ∧
      m'.rxHandlerSet = true ∧ m'.automaticRetransmissionEnabled = !false ∧
      ∃ m'', m'.start true = Except.ok m'' ∧
        m''.automaticRetransmissionEnabled = !true :=
  (c4_start_fails_iff_closed (MockMedia.init 64 3) false true).2 rfl

/-! ## Claim C5 -/

/-- Claim C5: reconfiguring a started (hence non-closed) adapter with
`k ≤ N` filter configurations succeeds and afterwards the bank still has
exactly `N` slots: the first `k` are the supplied configurations in order
and the remaining `N - k` are dead filters; no other adapter field
changes. (The caller's input list is untouched: the embedding models the
`list(configuration)` copy, so padding happens on a fresh list and the
argument itself appears verbatim as the head of the new bank.) -/
theorem c5_configure_pads_with_dead (m : MockMedia)
    (cfg : List FilterConfiguration)
    (_hstarted : m.rxHandlerSet = true)
    (hopen : m.closed = false)
    (hk : cfg.length ≤ m.acceptanceFilters.length) :
    ∃ m', m.configureAcceptanceFilters cfg = Except.ok m' ∧
      m'.acceptanceFilters.length = m.acceptanceFilters.length ∧
      m'.acceptanceFilters.take cfg.length = cfg ∧
      m'.acceptanceFilters.drop cfg.length =
        List.replicate (m.acceptanceFilters.length - cfg.length)
          MockMedia.makeDeadFilter ∧
      m'.mtu = m.mtu ∧ m'.closed = m.closed ∧
      m'.rxHandlerSet = m.rxHandlerSet ∧
      m'.automaticRetransmissionEnabled = m.automaticRetransmissionEnabled ∧
      m'.pendingSendFault = m.pendingSendFault := by
  have hlen : (cfg ++ List.replicate
      (m.acceptanceFilters.length - cfg.length) MockMedia.makeDeadFilter).length
      = m.acceptanceFilters.length := by
    simp [List.length_append, Nat.add_sub_cancel' hk]
  refine ⟨{ m with acceptanceFilters := cfg ++ List.replicate (m.acceptanceFilters.length - cfg.length) MockMedia.makeDeadFilter }, ?_, ?_, ?_, ?_, rfl, rfl, rfl, rfl, rfl⟩
  · unfold MockMedia.configureAcceptanceFilters
    simp [hopen, hlen]
  · exact hlen
  · exact List.take_left cfg _
  · exact List.drop_left cfg _

/-- Witness for C5: one configuration supplied to a started three-slot
adapter leaves a bank of that configuration followed by two dead
filters. -/
theorem c5_configure_pads_with_dead_witness :
    ∃ m', ({ MockMedia.init 64 3 with
        rxHandlerSet := true } : MockMedia).configureAcceptanceFilters
        [{ identifier := 123, mask := 127, format := none }] = Except.ok m' ∧
      m'.acceptanceFilters.length = 3 ∧
      m'.acceptanceFilters.take 1 =
        [{ identifier := 123, mask := 127, format := none }] ∧
      m'.acceptanceFilters.drop 1 =
        List.replicate 2 MockMedia.makeDeadFilter := by
  obtain ⟨m', h1, h2, h3, h4, -⟩ :=
    c5_configure_pads_with_dead
      { MockMedia.init 64 3 with rxHandlerSet := true }
      [{ identifier := 123, mask := 127, format := none }]
      rfl rfl (by decide)
  exact ⟨m', h1, by simpa using h2, by simpa using h3, by simpa using h4⟩

/-- What the broadcast path hands to one receiving peer: exactly the frames
of the batch that pass that peer's bank, in transmitted order, each
re-tagged `loopback := false` and stamped with the send time. -/
theorem receive_wire_eq (p : MockMedia) (frames : List DataFrame) (now : Nat) :
    p.receive (frames.map fun f => TimestampedDataFrame.mk { f with loopback := false } now) =
      (let delivered := (frames.filter fun f => p.testAcceptance f).map fun f => TimestampedDataFrame.mk { f with loopback := false } now
       if delivered.isEmpty then none else some delivered) := by
  unfold MockMedia.receive
  rw [filter_map_comm]
  simp only [testAcceptance_retag]

/-- What the self-loopback path hands back to the sender: exactly the
frames of the batch whose own loopback flag is set and which pass the
sender's bank, in transmitted order, re-tagged `loopback := true` and
stamped with the send time. -/
theorem receive_selfloop_eq (m : MockMedia) (frames : List DataFrame) (now : Nat) :
    m.receive ((frames.filter fun f => f.loopback).map fun f => TimestampedDataFrame.mk { f with loopback := true } now) =
      (let delivered := (frames.filter fun f => f.loopback && m.testAcceptance f).map fun f => TimestampedDataFrame.mk { f with loopback := true } now
       if delivered.isEmpty then none else some delivered) := by
  unfold MockMedia.receive
  rw [filter_map_comm]
  simp only [testAcceptance_retag, List.filter_filter, Bool.and_comm]

/-- A successful `send_until` call reduced to its broadcast effect. -/
theorem sendUntil_ok (m : MockMedia) (peers : List MockMedia)
    (frames : List DataFrame) (dl now : Nat)
    (hopen : m.closed = false) (hfault : m.pendingSendFault = none)
    (hne : frames.length ≠ 0)
    (hpay : (frames.any fun f => f.data.length = 0) = false)
    (huni : uniformIdentifier frames = true) :
    m.sendUntil peers frames dl now =
      (m, Except.ok
        { count := frames.length
          peerDeliveries := peers.map fun p => p.receive (frames.map fun f => TimestampedDataFrame.mk { f with loopback := false } now)
          selfDelivery := m.receive ((frames.filter fun f => f.loopback).map fun f => TimestampedDataFrame.mk { f with loopback := true } now) }) := by
  unfold MockMedia.sendUntil
  simp only [hopen, hfault, hne, hpay, huni, Bool.false_eq_true, Bool.not_true,
    if_false, ite_false]

/-! ## Claim C6 -/

/-- Claim C6: on a successful `send_until` call, every other peer in the
shared set is offered its own filtered copy of the batch: peer by peer,
the handler receives exactly the transmitted frames that peer's bank
accepts, in the transmitted relative order, every copy re-tagged
`loopback := false` regardless of the original flag and stamped with the
current time (and the handler is not invoked when no frame passes). -/
theorem c6_broadcast_retags_and_filters (m : MockMedia) (peers : List MockMedia)
    (frames : List DataFrame) (dl now : Nat)
    (hopen : m.closed = false) (hfault : m.pendingSendFault = none)
    (hne : frames.length ≠ 0)
    (hpay : (frames.any fun f => f.data.length = 0) = false)
    (huni : uniformIdentifier frames = true) :
    ∃ r, m.sendUntil peers frames dl now = (m, Except.ok r) ∧
      r.count = frames.length ∧
      r.peerDeliveries = peers.map fun p =>
        (let delivered := (frames.filter fun f => p.testAcceptance f).map fun f => TimestampedDataFrame.mk { f with loopback := false } now
         if delivered.isEmpty then none else some delivered) := by
  refine ⟨_, sendUntil_ok m peers frames dl now hopen hfault hne hpay huni, rfl, ?_⟩
  simp only [receive_wire_eq]

/-- Witness for C6: a two-frame batch broadcast to one promiscuous peer
arrives in order, both copies re-tagged non-loopback and stamped 9. -/
theorem c6_broadcast_retags_and_filters_witness :
    ∃ r, ({ MockMedia.init 64 3 with rxHandlerSet := true } : MockMedia).sendUntil
        [{ MockMedia.init 8 1 with rxHandlerSet := true, acceptanceFilters := [{ identifier := 0, mask := 0, format := none }] }]
        [{ identifier := 123, data := [97], format := FrameFormat.extended, loopback := false },
         { identifier := 123, data := [98], format := FrameFormat.extended, loopback := true }] 5 9 =
      ({ MockMedia.init 64 3 with rxHandlerSet := true }, Except.ok r) ∧
      r.count = 2 ∧
      r.peerDeliveries =
        [some [{ frame := { identifier := 123, data := [97], format := FrameFormat.extended, loopback := false }, timestamp := 9 },
               { frame := { identifier := 123, data := [98], format := FrameFormat.extended, loopback := false }, timestamp := 9 }]] := by
  obtain ⟨r, h1, h2, h3⟩ :=
    c6_broadcast_retags_and_filters
      { MockMedia.init 64 3 with rxHandlerSet := true }
      [{ MockMedia.init 8 1 with rxHandlerSet := true, acceptanceFilters := [{ identifier := 0, mask := 0, format := none }] }]
      [{ identifier := 123, data := [97], format := FrameFormat.extended, loopback := false },
       { identifier := 123, data := [98], format := FrameFormat.extended, loopback := true }] 5 9
      rfl rfl (by decide) (by decide) (by decide)
  exact ⟨r, h1, h2, by rw [h3]; rfl⟩

/-! ## Claim C7 -/

/-- Claim C7: on a successful `send_until` call, the sender's own handler
receives back exactly those frames of the batch whose own loopback flag
was true and which pass the sender's own acceptance-filter bank, re-tagged
`loopback := true` and stamped with the current time (no such frame: the
handler is not invoked). -/
theorem c7_self_loopback (m : MockMedia) (peers : List MockMedia)
    (frames : List DataFrame) (dl now : Nat)
    (hopen : m.closed = false) (hfault : m.pendingSendFault = none)
    (hne : frames.length ≠ 0)
    (hpay : (frames.any fun f => f.data.length = 0) = false)
    (huni : uniformIdentifier frames = true) :
    ∃ r, m.sendUntil peers frames dl now = (m, Except.ok r) ∧
      r.selfDelivery =
        (let delivered := (frames.filter fun f => f.loopback && m.testAcceptance f).map fun f => TimestampedDataFrame.mk { f with loopback := true } now
         if delivered.isEmpty then none else some delivered) := by
  refine ⟨_, sendUntil_ok m peers frames dl now hopen hfault hne hpay huni, ?_⟩
  exact receive_selfloop_eq m frames now

/-- Witness for C7: with a promiscuous own bank, only the loopback-flagged
frame of a two-frame batch comes back, tagged loopback and stamped 9. -/
theorem c7_self_loopback_witness :
    ∃ r, ({ MockMedia.init 64 3 with rxHandlerSet := true, acceptanceFilters := [{ identifier := 0, mask := 0, format := none }] } : MockMedia).sendUntil
        []
        [{ identifier := 123, data := [97], format := FrameFormat.extended, loopback := false },
         { identifier := 123, data := [98], format := FrameFormat.extended, loopback := true }] 5 9 =
      ({ MockMedia.init 64 3 with rxHandlerSet := true, acceptanceFilters := [{ identifier := 0, mask := 0, format := none }] }, Except.ok r) ∧
      r.selfDelivery =
        some [{ frame := { identifier := 123, data := [98], format := FrameFormat.extended, loopback := true }, timestamp := 9 }] := by
  obtain ⟨r, h1, h2⟩ :=
    c7_self_loopback
      { MockMedia.init 64 3 with rxHandlerSet := true, acceptanceFilters := [{ identifier := 0, mask := 0, format := none }] }
      []
      [{ identifier := 123, data := [97], format := FrameFormat.extended, loopback := false },
       { identifier := 123, data := [98], format := FrameFormat.extended, loopback := true }] 5 9
      rfl rfl (by decide) (by decide) (by decide)
  exact ⟨r, h1, by rw [h2]; rfl⟩

/-! ## Claim C8 -/

/-- Counterexample to claim C8 as stated: on a started adapter with an
armed one-shot fault, `send_until` with an invalid (empty) batch raises the
injected fault, not the contract-violation failure — the fault check comes
before batch validation, not after. -/
theorem c8_fault_first_counterexample :
    ({ MockMedia.init 64 3 with rxHandlerSet := true, pendingSendFault := some 7 } : MockMedia).sendUntil [] [] 1 2 =
      ({ MockMedia.init 64 3 with rxHandlerSet := true },
        Except.error (MediaErr.injected 7)) := by
  rfl

/-- Claim C8 (amended): on a non-closed adapter, `send_until` raises an
armed fault immediately after the closed check and before any batch
validation or delivery; only when no fault is pending does it validate the
batch — empty batch, then zero-length payload, then non-uniform
identifier — each failing with the corresponding contract violation and
delivering nothing. -/
theorem c8_fault_precedes_validation (m : MockMedia) (peers : List MockMedia)
    (frames : List DataFrame) (dl now : Nat) (hopen : m.closed = false) :
    (∀ e, m.pendingSendFault = some e →
        m.sendUntil peers frames dl now =
          ({ m with pendingSendFault := none },
            Except.error (MediaErr.injected e))) ∧
    (m.pendingSendFault = none → frames.length = 0 →
        m.sendUntil peers frames dl now =
          (m, Except.error (MediaErr.assertionFailed emptyBatchMsg))) ∧
    (m.pendingSendFault = none → frames.length ≠ 0 →
        (frames.any fun f => f.data.length = 0) = true →
        m.sendUntil peers frames dl now =
          (m, Except.error (MediaErr.assertionFailed emptyPayloadMsg))) ∧
    (m.pendingSendFault = none → frames.length ≠ 0 →
        (frames.any fun f => f.data.length = 0) = false →
        uniformIdentifier frames = false →
        m.sendUntil peers frames dl now =
          (m, Except.error (MediaErr.assertionFailed nonuniformIdMsg))) := by
  refine ⟨?_, ?_, ?_, ?_⟩
  · intro e he
    unfold MockMedia.sendUntil
    simp only [hopen, he, Bool.false_eq_true, if_false]
  · intro hf hemp
    unfold MockMedia.sendUntil
    simp only [hopen, hf, hemp, Bool.false_eq_true, if_false, if_true, ite_true]
  · intro hf hne hpay
    unfold MockMedia.sendUntil
    simp only [hopen, hf, hne, hpay, Bool.false_eq_true, if_false, if_true,
      ite_true, ite_false]
  · intro hf hne hpay huni
    unfold MockMedia.sendUntil
    simp only [hopen, hf, hne, hpay, huni, Bool.false_eq_true, Bool.not_false,
      if_false, if_true, ite_true, ite_false]

/-- Witness for C8: the fault branch applied on a started adapter with an
armed fault and an empty batch. -/
theorem c8_fault_precedes_validation_witness :
    ({ MockMedia.init 8 1 with rxHandlerSet := true, pendingSendFault := some 3 } : MockMedia).sendUntil [] [] 0 0 =
      ({ MockMedia.init 8 1 with rxHandlerSet := true },
        Except.error (MediaErr.injected 3)) :=
  (c8_fault_precedes_validation
    { MockMedia.init 8 1 with rxHandlerSet := true, pendingSendFault := some 3 }
    [] [] 0 0 rfl).1 3 rfl

/-! ## Claim C9 -/

/-- Claim C9: after arming a one-shot fault on a started adapter, the next
`send_until` raises exactly that fault with an error outcome — so no frame
is delivered to any peer or to the sender — while every adapter field
other than the fault slot (in particular the filter bank) is unchanged and
the fault slot is cleared in the same call; a subsequent valid
`send_until` then succeeds and returns the full batch length. -/
theorem c9_fault_oneshot (m : MockMedia) (peers : List MockMedia)
    (frames frames2 : List DataFrame) (dl now dl2 now2 : Nat) (e : Nat)
    (hopen : m.closed = false)
    (hne : frames2.length ≠ 0)
    (hpay : (frames2.any fun f => f.data.length = 0) = false)
    (huni : uniformIdentifier frames2 = true) :
    (m.raiseOnSendOnce e).sendUntil peers frames dl now =
      ({ m with pendingSendFault := none },
        Except.error (MediaErr.injected e)) ∧
    ({ m with pendingSendFault := none } : MockMedia).acceptanceFilters =
      m.acceptanceFilters ∧
    ∃ r, ({ m with pendingSendFault := none } : MockMedia).sendUntil peers frames2 dl2 now2 =
        ({ m with pendingSendFault := none }, Except.ok r) ∧
      r.count = frames2.length := by
  refine ⟨?_, rfl, ?_⟩
  · unfold MockMedia.raiseOnSendOnce MockMedia.sendUntil
    simp only [hopen, Bool.false_eq_true, if_false]
  · exact ⟨_, sendUntil_ok { m with pendingSendFault := none } peers frames2
      dl2 now2 hopen rfl hne hpay huni, rfl⟩

/-- Witness for C9: fault 5 armed on a started adapter is raised by the
next call and a following one-frame batch is sent in full. -/
theorem c9_fault_oneshot_witness :
    (({ MockMedia.init 64 3 with rxHandlerSet := true } : MockMedia).raiseOnSendOnce 5).sendUntil [] [] 0 0 =
      ({ MockMedia.init 64 3 with rxHandlerSet := true },
        Except.error (MediaErr.injected 5)) ∧
    ∃ r, ({ MockMedia.init 64 3 with rxHandlerSet := true } : MockMedia).sendUntil
        [] [{ identifier := 123, data := [97], format := FrameFormat.extended, loopback := false }] 0 0 =
      ({ MockMedia.init 64 3 with rxHandlerSet := true }, Except.ok r) ∧
      r.count = 1 := by
  obtain ⟨h1, -, h3⟩ :=
    c9_fault_oneshot { MockMedia.init 64 3 with rxHandlerSet := true }
      [] []
      [{ identifier := 123, data := [97], format := FrameFormat.extended, loopback := false }]
      0 0 0 0 5 rfl (by decide) (by decide) (by decide)
  exact ⟨h1, h3⟩

/-! ## Claim C10 -/

/-- Claim C10: `inject_received` performs no lifecycle check at all — its
behaviour is identical whatever the closed flag (so it never fails with
ResourceClosed, in the created, started and closed states alike); it
stamps the supplied frames with the current time, preserves each frame's
own loopback flag, filters them through the adapter's own bank in input
order, and invokes the reception callback iff some supplied frame passes
the bank. -/
theorem c10_injectReceived_ignores_lifecycle (m : MockMedia)
    (frames : List DataFrame) (now : Nat) (c : Bool) (h : Bool) :
    ({ m with closed := c, rxHandlerSet := h } : MockMedia).injectReceived frames now =
      m.injectReceived frames now ∧
    m.injectReceived frames now =
      (let delivered := (frames.filter fun f => m.testAcceptance f).map fun f => TimestampedDataFrame.mk f now
       if delivered.isEmpty then none else some delivered) ∧
    (m.injectReceived frames now ≠ none ↔
      ∃ f ∈ frames, m.testAcceptance f = true) := by
  have hchar : m.injectReceived frames now =
      (let delivered := (frames.filter fun f => m.testAcceptance f).map fun f => TimestampedDataFrame.mk f now
       if delivered.isEmpty then none else some delivered) := by
    unfold MockMedia.injectReceived MockMedia.receive
    rw [filter_map_comm]
  refine ⟨by cases m; rfl, hchar, ?_⟩
  rw [hchar]
  constructor
  · intro hinv
    by_contra hnone
    push_neg at hnone
    have hfil : (frames.filter fun f => m.testAcceptance f) = [] :=
      List.filter_eq_nil_iff.mpr fun a ha => by simpa using hnone a ha
    exact hinv (by simp [hfil])
  · rintro ⟨f, hf, hacc⟩ hcontr
    have hmem : f ∈ frames.filter fun g => m.testAcceptance g :=
      List.mem_filter.mpr ⟨hf, hacc⟩
    rcases hq : frames.filter fun g => m.testAcceptance g with _ | ⟨a, l⟩
    · rw [hq] at hmem
      exact absurd hmem (List.not_mem_nil f)
    · rw [hq] at hcontr
      simp at hcontr

/-- Witness for C10: a closed adapter still delivers an injected base-format
frame with identifier 0 through its default dead bank (which accepts it),
loopback flag preserved and timestamp 3. -/
theorem c10_injectReceived_ignores_lifecycle_witness :
    ({ MockMedia.init 4 1 with closed := true, rxHandlerSet := true } : MockMedia).injectReceived
        [{ identifier := 0, data := [1], format := FrameFormat.base, loopback := true }] 3 ≠ none := by
  have h :=
    (c10_injectReceived_ignores_lifecycle (MockMedia.init 4 1)
      [{ identifier := 0, data := [1], format := FrameFormat.base, loopback := true }]
      3 true true)
  rw [h.1]
  exact h.2.2.mpr
    ⟨{ identifier := 0, data := [1], format := FrameFormat.base, loopback := true },
      by simp, by decide⟩

end PyuavcanMock
